import Mathlib

/-!
Verification of the iris sessions manager (sessions.go).

The manager (`Sessions`) ties an HTTP request context to a provider-managed
session via cookie reads and writes.  The file embeds `sessions.go` directly;
the collaborating `context` package (cookie and request-value plumbing) and the
`provider` registry, which are not part of the analysed source file, are
modelled from the specification, with each such definition marked in its doc
comment.
-/

namespace IrisSessions

/-- Association-list lookup by string key (a Go map read). -/
def lookupKey {α : Type} : List (String × α) → String → Option α
  | [], _ => none
  | (k, v) :: rest, key => if k = key then some v else lookupKey rest key

/-- Association-list insert-or-replace by string key (a Go map write). -/
def putKey {α : Type} : List (String × α) → String → α → List (String × α)
  | [], key, v => [(key, v)]
  | (k, w) :: rest, key, v =>
    if k = key then (key, v) :: rest else (k, w) :: putKey rest key v

/-- Association-list removal by string key (a Go map delete). -/
def eraseKey {α : Type} : List (String × α) → String → List (String × α)
  | [], _ => []
  | (k, w) :: rest, key =>
    if k = key then eraseKey rest key else (k, w) :: eraseKey rest key

/-- Server-side session record: id, the is-new flag set at creation, the
in-memory key/value store and the lifetime duration it was scheduled with
(durations are Go `time.Duration` nanosecond counts, embedded as `Int`). -/
structure Session where
  sid : String
  isNew : Bool
  store : List (String × String)
  lifetime : Int
deriving DecidableEq

/-- Expiration encoding carried by a written cookie, the three states the
`http.Cookie` built by `updateCookie` can be in: fields left untouched
(serialized without a Max-Age / Expires attribute, browser-session scoped),
the `context.CookieExpireUnlimited` sentinel, or an absolute instant. -/
inductive CookieExpiration where
  | sessionScoped
  | unlimited
  | absolute (t : Int)
deriving DecidableEq

/-- The `http.Cookie` as populated by `updateCookie`.  The Go struct fields
`Expires` and `MaxAge` are set together from one branch, so they are embedded
as the single `expiration` field plus the derived observations below. -/
structure HCookie where
  name : String
  value : String
  path : String
  httpOnly : Bool
  expiration : CookieExpiration
deriving DecidableEq

/-- Modelled from the spec: cookie options are opaque transformers handed to
the request layer (`context.CookieOption`); they are embedded as markers so
that the manager code that selects and forwards them can be observed. -/
inductive CookieOption where
  | allowReclaim (cookieName : String)
  | allowSubdomains (cookieName : String)
  | secure
  | encoding (cookieName : String)
  | path (dir : String)
  | custom (tag : Nat)
deriving DecidableEq

/-- Modelled from the spec: a value held in the request-scoped key/value state
(`ctx.Values()`); it is either a `*Session` or some unrelated value, so that
the type assertion in `Get` can be embedded. -/
inductive CtxValue where
  | session (sess : Session)
  | other (tag : String)
deriving DecidableEq

/-- Modelled from the spec: the request context, restricted to what the
sessions manager touches — the request cookies (a total map returning the
empty string when the cookie is absent, as Go `GetCookie` does), the response
cookies written so far (with the options each write carried), the client-side
cookie removals, the request-scoped value store, the request-lifecycle cookie
options added by middleware, and whether downstream processing was invoked. -/
structure Ctx where
  requestCookies : String → String
  responseCookies : List (HCookie × List CookieOption)
  removedCookies : List String
  values : List (String × CtxValue)
  cookieOptions : List CookieOption
  nextCalled : Bool

/-- Modelled from the spec: `ctx.GetCookie` returns the request cookie value,
the empty string when absent.  The option arguments passed at the Go call
sites are value transcoders and do not alter presence, so they are dropped. -/
def Ctx.getCookie (ctx : Ctx) (name : String) : String :=
  ctx.requestCookies name

/-- Modelled from the spec: `ctx.UpsertCookie` adds the cookie to the response
or updates the response cookie of the same name in place. -/
def upsertCookieList (c : HCookie) (opts : List CookieOption) :
    List (HCookie × List CookieOption) → List (HCookie × List CookieOption)
  | [] => [(c, opts)]
  | e :: rest =>
    if e.1.name == c.name then (c, opts) :: rest else e :: upsertCookieList c opts rest

/-- Modelled from the spec: `ctx.UpsertCookie` applied to the context. -/
def Ctx.upsertCookie (ctx : Ctx) (c : HCookie) (opts : List CookieOption) : Ctx :=
  { ctx with responseCookies := upsertCookieList c opts ctx.responseCookies }

/-- The response cookie of the given name, if one was written. -/
def Ctx.writtenCookie (ctx : Ctx) (name : String) :
    Option (HCookie × List CookieOption) :=
  ctx.responseCookies.find? fun e => e.1.name == name

/-- Modelled from the spec: `ctx.Values().Set`. -/
def Ctx.valuesSet (ctx : Ctx) (key : String) (v : CtxValue) : Ctx :=
  { ctx with values := putKey ctx.values key v }

/-- Modelled from the spec: `ctx.Values().Get`. -/
def Ctx.valuesGet (ctx : Ctx) (key : String) : Option CtxValue :=
  lookupKey ctx.values key

/-- Modelled from the spec: `ctx.Values().Remove`. -/
def Ctx.valuesRemove (ctx : Ctx) (key : String) : Ctx :=
  { ctx with values := eraseKey ctx.values key }

/-- Modelled from the spec: `ctx.RemoveCookie` instructs the request layer to
remove the named cookie client-side. -/
def Ctx.removeCookie (ctx : Ctx) (name : String) : Ctx :=
  { ctx with removedCookies := ctx.removedCookies ++ [name] }

/-- Modelled from the spec: `ctx.AddCookieOptions` registers request-lifecycle
cookie options. -/
def Ctx.addCookieOptions (ctx : Ctx) (opts : List CookieOption) : Ctx :=
  { ctx with cookieOptions := ctx.cookieOptions ++ opts }

/-- Modelled from the spec: `ctx.Next` continues downstream processing. -/
def Ctx.next (ctx : Ctx) : Ctx :=
  { ctx with nextCalled := true }

/-- Session-lifecycle errors of the package: `ErrNotFound` for an id unknown
to both the registry and the registered databases, `ErrNotImplemented` for a
database backend that cannot persist an expiration update. -/
inductive SessionError where
  | errNotFound
  | errNotImplemented
deriving DecidableEq

/-- Modelled from the spec: the provider — the registry of live session
records keyed by id, a view of the registered databases (`dbLen` is the
number of persisted entries a database holds for an id, `Len`), whether an
attached database cannot persist expiration updates, and the log of ids whose
destruction fan-out (listener invocation) has run. -/
structure Provider where
  registry : List (String × Session)
  dbLen : String → Nat
  dbCannotPersistExpiration : Bool
  destroyedIDs : List String

/-- Modelled from the spec: `provider.Init` creates a fresh record for the id
with an empty in-memory store, sets its is-new flag to whether no prior
entries exist for the id across registered databases, schedules it with the
given expiration, and registers it. -/
def Provider.init (p : Provider) (sid : String) (expires : Int) :
    Session × Provider :=
  let sess : Session :=
    { sid := sid, isNew := p.dbLen sid == 0, store := [], lifetime := expires }
  (sess, { p with registry := putKey p.registry sid sess })

/-- Modelled from the spec: `provider.Read` returns the live record for the
id, auto-creating one via `Init` on a miss. -/
def Provider.read (p : Provider) (sid : String) (expires : Int) :
    Session × Provider :=
  match lookupKey p.registry sid with
  | some sess => (sess, p)
  | none => p.init sid expires

/-- Whether the id is known to the registry or to a registered database. -/
def Provider.knowsID (p : Provider) (sid : String) : Bool :=
  (lookupKey p.registry sid).isSome || p.dbLen sid != 0

/-- Modelled from the spec: `provider.UpdateExpiration` resets the deadline of
the record for the id; it fails with `ErrNotFound` when neither the registry
nor a database knows the id, and with `ErrNotImplemented` when an attached
database cannot persist the new deadline. -/
def Provider.updateExpiration (p : Provider) (sid : String) (expires : Int) :
    Option SessionError × Provider :=
  if p.knowsID sid then
    if p.dbCannotPersistExpiration then (some SessionError.errNotImplemented, p)
    else
      (none,
       { p with registry :=
           p.registry.map fun e =>
             if e.1 == sid then (e.1, { e.2 with lifetime := expires }) else e })
  else (some SessionError.errNotFound, p)

/-- Modelled from the spec: `provider.Destroy` removes the record for the id
and runs the destroy fan-out; destroying an unknown id is a no-op. -/
def Provider.destroy (p : Provider) (sid : String) : Provider :=
  match lookupKey p.registry sid with
  | some _ =>
    { p with registry := eraseKey p.registry sid,
             destroyedIDs := p.destroyedIDs ++ [sid] }
  | none => p

/-- Modelled from the spec: `provider.DestroyAll` drains the registry, running
the destroy fan-out for every id it held. -/
def Provider.destroyAll (p : Provider) : Provider :=
  { p with registry := [],
           destroyedIDs := p.destroyedIDs ++ p.registry.map Prod.fst }

/-- Manager configuration (`Config`), restricted to the fields `sessions.go`
reads: the cookie name, the default expiration, the id generator, and the
cookie-scope flags consulted by `Handler`.  `encoding` embeds whether the
`Encoding` hook is non-nil. -/
structure Config where
  cookie : String
  expires : Int
  sessionIDGenerator : Ctx → String
  allowReclaim : Bool
  disableSubdomainPersistence : Bool
  cookieSecureTLS : Bool
  encoding : Bool

/-- The sessions manager: configuration, provider, and the cookie options
captured by `Handler`. -/
structure Sessions where
  config : Config
  provider : Provider
  handlerCookieOpts : List CookieOption

/-- The fixed request-scoped key under which `Handler` attaches the session. -/
def sessionContextKey : String := "iris.session"

/-- The cookie built by `updateCookie` (sessions.go lines 49-68): name, value,
path and HttpOnly are always set; for a non-negative duration the expiry is
the unlimited sentinel at zero and an absolute instant `now + expires`
otherwise, and for a negative duration the expiry fields are left untouched. -/
def mkSessionCookie (cfg : Config) (now : Int) (sid : String) (expires : Int) :
    HCookie :=
  { name := cfg.cookie, value := sid, path := "/", httpOnly := true,
    expiration :=
      if 0 ≤ expires then
        if expires = 0 then CookieExpiration.unlimited
        else CookieExpiration.absolute (now + expires)
      else CookieExpiration.sessionScoped }

/-- Whether a written cookie carries an expiration attribute.  Modelled from
the spec for the two non-absolute states: untouched expiry fields serialize
without a Max-Age / Expires attribute, and the unlimited sentinel marks the
browser-session-scoped cookie of an unlimited server-side session. -/
def hasExpirationAttr (c : HCookie) : Bool :=
  match c.expiration with
  | CookieExpiration.absolute _ => true
  | _ => false

/-- Whether a written cookie expires immediately at the given instant. -/
def cookieExpiresImmediately (now : Int) (c : HCookie) : Bool :=
  match c.expiration with
  | CookieExpiration.absolute t => decide (t ≤ now)
  | _ => false

/-- The Max-Age attribute of a written cookie in whole seconds, derived from
the instant the expiry fields encode (`int(time.Until(cookie.Expires).Seconds())`);
none when no expiration attribute is serialized. -/
def cookieMaxAge (now : Int) (c : HCookie) : Option Int :=
  match c.expiration with
  | CookieExpiration.absolute t => some (Int.tdiv (t - now) 1000000000)
  | _ => none

/-- Embedding of `Sessions.updateCookie`: build the session cookie for the id
and expiration and upsert it into the response with the given options. -/
def Sessions.updateCookie (s : Sessions) (now : Int) (ctx : Ctx) (sid : String)
    (expires : Int) (options : List CookieOption) : Ctx :=
  ctx.upsertCookie (mkSessionCookie s.config now sid expires) options

/-- Embedding of the cookie-missing branch of `Sessions.Start` (lines 84-92):
generate an id, `provider.Init` it, set the is-new flag from the database
entry count (the Go code mutates the record the registry points to, embedded
here as a re-insert of the updated record), write the session cookie. -/
def Sessions.startFresh (s : Sessions) (now : Int) (ctx : Ctx)
    (cookieOptions : List CookieOption) : Session × Sessions × Ctx :=
  let sid := s.config.sessionIDGenerator ctx
  let ip := s.provider.init sid s.config.expires
  let sess := { ip.1 with isNew := s.provider.dbLen sid == 0 }
  let p2 := { ip.2 with registry := putKey ip.2.registry sid sess }
  (sess, { s with provider := p2 },
   s.updateCookie now ctx sid s.config.expires cookieOptions)

/-- Embedding of `Sessions.Start` (lines 81-96): dispatch on the presence of
the configured cookie — absent starts a fresh session and writes the cookie,
present delegates to `provider.Read` and leaves the context untouched. -/
def Sessions.start (s : Sessions) (now : Int) (ctx : Ctx)
    (cookieOptions : List CookieOption) : Session × Sessions × Ctx :=
  if ctx.getCookie s.config.cookie = "" then
    s.startFresh now ctx cookieOptions
  else
    ((s.provider.read (ctx.getCookie s.config.cookie) s.config.expires).1,
     { s with
         provider :=
           (s.provider.read (ctx.getCookie s.config.cookie) s.config.expires).2 },
     ctx)

/-- Embedding of `Sessions.UpdateExpiration` (lines 167-180): `ErrNotFound`
without a cookie; otherwise delegate to the provider and rewrite the cookie
exactly when the provider succeeded or the duration is the `-1` sentinel. -/
def Sessions.updateExpiration (s : Sessions) (now : Int) (ctx : Ctx)
    (expires : Int) (cookieOptions : List CookieOption) :
    Option SessionError × Sessions × Ctx :=
  if ctx.getCookie s.config.cookie = "" then
    (some SessionError.errNotFound, s, ctx)
  else
    let ep := s.provider.updateExpiration (ctx.getCookie s.config.cookie) expires
    let s2 := { s with provider := ep.2 }
    (ep.1, s2,
     if ep.1 = none ∨ expires = -1 then
       s2.updateCookie now ctx (ctx.getCookie s.config.cookie) expires cookieOptions
     else ctx)

/-- Embedding of `Sessions.ShiftExpiration` (lines 159-161): delegate to
`UpdateExpiration` with the configured default expiration. -/
def Sessions.shiftExpiration (s : Sessions) (now : Int) (ctx : Ctx)
    (cookieOptions : List CookieOption) : Option SessionError × Sessions × Ctx :=
  s.updateExpiration now ctx s.config.expires cookieOptions

/-- Embedding of `Sessions.Destroy` (lines 201-211): a no-op without a cookie;
otherwise drop the request-scoped session value, remove the cookie client-side
and destroy the provider record for the cookie value. -/
def Sessions.destroy (s : Sessions) (ctx : Ctx) : Sessions × Ctx :=
  if ctx.getCookie s.config.cookie = "" then (s, ctx)
  else
    ({ s with provider := s.provider.destroy (ctx.getCookie s.config.cookie) },
     (ctx.valuesRemove sessionContextKey).removeCookie s.config.cookie)

/-- Embedding of the package-level `Get` (lines 140-149): the session attached
under the fixed key, or none when absent or of another type. -/
def Get (ctx : Ctx) : Option Session :=
  match ctx.valuesGet sessionContextKey with
  | some (CtxValue.session sess) => some sess
  | _ => none

/-- The request-lifecycle options `Handler` derives from the manager-wide
cookie-scope flags (lines 107-119). -/
def Sessions.handlerRequestOptions (s : Sessions) : List CookieOption :=
  (if s.config.allowReclaim then [CookieOption.allowReclaim s.config.cookie] else []) ++
  (if !s.config.disableSubdomainPersistence then
     [CookieOption.allowSubdomains s.config.cookie] else []) ++
  (if s.config.cookieSecureTLS then [CookieOption.secure] else []) ++
  (if s.config.encoding then [CookieOption.encoding s.config.cookie] else [])

/-- Embedding of the capture performed once by `Sessions.Handler` (line 105):
the per-call cookie options are stored on the manager. -/
def Sessions.handler (s : Sessions) (cookieOptions : List CookieOption) : Sessions :=
  { s with handlerCookieOpts := cookieOptions }

/-- Embedding of one request through the middleware closure returned by
`Sessions.Handler` (lines 121-128): add the request-lifecycle options, start
the session with the captured per-call options, attach it under the fixed key,
continue downstream. -/
def Sessions.handlerStep (s : Sessions) (now : Int)
    (cookieOptions : List CookieOption) (ctx : Ctx) : Sessions × Ctx :=
  let ctx1 := ctx.addCookieOptions s.handlerRequestOptions
  let r := s.start now ctx1 cookieOptions
  (r.2.1, ((r.2.2.valuesSet sessionContextKey (CtxValue.session r.1)).next))

/-- Embedding of `Sessions.DestroyByID` (lines 221-223). -/
def Sessions.destroyByID (s : Sessions) (sid : String) : Sessions :=
  { s with provider := s.provider.destroy sid }

/-- Embedding of `Sessions.DestroyAll` (lines 228-230). -/
def Sessions.destroyAll (s : Sessions) : Sessions :=
  { s with provider := s.provider.destroyAll }

/-- A manager together with a live request context, for stating which parts of
the pair an administrative operation may touch. -/
structure RequestWorld where
  manager : Sessions
  ctx : Ctx

/-- `DestroyByID` performed while a request is in flight: it receives no
context and acts on the manager alone. -/
def RequestWorld.destroyByID (w : RequestWorld) (sid : String) : RequestWorld :=
  { w with manager := w.manager.destroyByID sid }

/-- `DestroyAll` performed while a request is in flight. -/
def RequestWorld.destroyAll (w : RequestWorld) : RequestWorld :=
  { w with manager := w.manager.destroyAll }

/-- Looking up a key right after inserting it finds the inserted value. -/
theorem lookup_putKey {α : Type} (l : List (String × α)) (k : String) (v : α) :
    lookupKey (putKey l k v) k = some v := by
  induction l with
  | nil => simp [putKey, lookupKey]
  | cons e rest ih =>
    obtain ⟨k1, w⟩ := e
    by_cases h : k1 = k
    · simp [putKey, lookupKey, h]
    · simp [putKey, lookupKey, h, ih]

/-- Looking up a key right after erasing it finds nothing. -/
theorem lookup_eraseKey {α : Type} (l : List (String × α)) (k : String) :
    lookupKey (eraseKey l k) k = none := by
  induction l with
  | nil => simp [eraseKey, lookupKey]
  | cons e rest ih =>
    obtain ⟨k1, w⟩ := e
    by_cases h : k1 = k
    · simp [eraseKey, h, ih]
    · simp [eraseKey, lookupKey, h, ih]

/-- An upserted cookie is the one found under its name afterwards. -/
theorem find_upsertCookieList (c : HCookie) (opts : List CookieOption)
    (cs : List (HCookie × List CookieOption)) :
    List.find? (fun e => e.1.name == c.name) (upsertCookieList c opts cs)
      = some (c, opts) := by
  induction cs with
  | nil => simp [upsertCookieList]
  | cons e rest ih =>
    by_cases h : e.1.name = c.name
    · simp [upsertCookieList, h]
    · simp [upsertCookieList, h, ih]

/-- The cookie recorded by `updateCookie` under the configured name is exactly
the session cookie it built, together with the options of the call. -/
theorem writtenCookie_updateCookie (s : Sessions) (now : Int) (ctx : Ctx)
    (sid : String) (expires : Int) (opts : List CookieOption) :
    (s.updateCookie now ctx sid expires opts).writtenCookie s.config.cookie
      = some (mkSessionCookie s.config now sid expires, opts) := by
  have h := find_upsertCookieList (mkSessionCookie s.config now sid expires)
    opts ctx.responseCookies
  simpa [Sessions.updateCookie, Ctx.upsertCookie, Ctx.writtenCookie,
    mkSessionCookie] using h

/-- `Start` touches only the response cookies of the context: the lifecycle
options, the value store and the downstream flag are preserved. -/
theorem start_ctx_frame (s : Sessions) (now : Int) (ctx : Ctx)
    (opts : List CookieOption) :
    (s.start now ctx opts).2.2.cookieOptions = ctx.cookieOptions ∧
    (s.start now ctx opts).2.2.values = ctx.values ∧
    (s.start now ctx opts).2.2.nextCalled = ctx.nextCalled := by
  by_cases h : ctx.getCookie s.config.cookie = ""
  · simp [Sessions.start, h, Sessions.startFresh, Sessions.updateCookie,
      Ctx.upsertCookie]
  · simp [Sessions.start, h]

/-- Example request context carrying no cookies and no state. -/
def ctxNoCookie : Ctx :=
  { requestCookies := fun _ => "", responseCookies := [], removedCookies := [],
    values := [], cookieOptions := [], nextCalled := false }

/-- Example request context presenting the cookie sid=abc123. -/
def ctxWithSid : Ctx :=
  { ctxNoCookie with
      requestCookies := fun n => if n = "sid" then "abc123" else "" }

/-- Example configuration: cookie named sid, unlimited default expiration, an
id generator always producing abc123. -/
def cfg0 : Config :=
  { cookie := "sid", expires := 0, sessionIDGenerator := fun _ => "abc123",
    allowReclaim := false, disableSubdomainPersistence := false,
    cookieSecureTLS := false, encoding := false }

/-- Example provider with an empty registry and no database entries. -/
def provider0 : Provider :=
  { registry := [], dbLen := fun _ => 0, dbCannotPersistExpiration := false,
    destroyedIDs := [] }

/-- Example manager over the empty provider. -/
def sessions0 : Sessions :=
  { config := cfg0, provider := provider0, handlerCookieOpts := [] }

/-- Example session record. -/
def sessEx : Session :=
  { sid := "abc123", isNew := true, store := [], lifetime := 0 }

/-- Example context with a session attached under the fixed key. -/
def ctxAttached : Ctx :=
  { ctxWithSid with values := [(sessionContextKey, CtxValue.session sessEx)] }

/-- C1: when the configured cookie is absent from the request, `Start`
generates an id via the configured generator, initializes a provider record
carrying that id and the configured expiration, writes a fresh cookie whose
value is the id, and returns the resulting session; when the cookie is
present, `Start` returns the session `provider.Read` yields for the cookie
value and leaves the request context untouched (no cookie write). -/
theorem C1_start_dispatch (s : Sessions) (now : Int) (ctx : Ctx)
    (opts : List CookieOption) :
    (ctx.getCookie s.config.cookie = "" →
      (s.start now ctx opts).1.sid = s.config.sessionIDGenerator ctx ∧
      (s.start now ctx opts).1.lifetime = s.config.expires ∧
      lookupKey (s.start now ctx opts).2.1.provider.registry
          (s.config.sessionIDGenerator ctx) = some (s.start now ctx opts).1 ∧
      (s.start now ctx opts).2.2.writtenCookie s.config.cookie
        = some (mkSessionCookie s.config now (s.config.sessionIDGenerator ctx)
            s.config.expires, opts)) ∧
    (ctx.getCookie s.config.cookie ≠ "" →
      (s.start now ctx opts).1
          = (s.provider.read (ctx.getCookie s.config.cookie) s.config.expires).1 ∧
      (s.start now ctx opts).2.1.provider
          = (s.provider.read (ctx.getCookie s.config.cookie) s.config.expires).2 ∧
      (s.start now ctx opts).2.2 = ctx) := by
  constructor
  · intro h
    have hw := writtenCookie_updateCookie s now ctx
      (s.config.sessionIDGenerator ctx) s.config.expires opts
    refine ⟨?_, ?_, ?_, ?_⟩ <;>
      simp [Sessions.start, h, Sessions.startFresh, Provider.init,
        lookup_putKey, hw]
  · intro h
    refine ⟨?_, ?_, ?_⟩ <;> simp [Sessions.start, h]

/-- C1 witness at concrete inputs for both branches. -/
theorem C1_witness :
    ((sessions0.start 0 ctxNoCookie []).1.sid
        = sessions0.config.sessionIDGenerator ctxNoCookie ∧
     (sessions0.start 0 ctxNoCookie []).2.2.writtenCookie sessions0.config.cookie
        = some (mkSessionCookie sessions0.config 0
            (sessions0.config.sessionIDGenerator ctxNoCookie)
            sessions0.config.expires, [])) ∧
    (sessions0.start 0 ctxWithSid []).2.2 = ctxWithSid :=
  ⟨⟨((C1_start_dispatch sessions0 0 ctxNoCookie []).1 rfl).1,
    ((C1_start_dispatch sessions0 0 ctxNoCookie []).1 rfl).2.2.2⟩,
   ((C1_start_dispatch sessions0 0 ctxWithSid []).2 (by decide)).2.2⟩

/-- C2 counterexample: with a negative duration (here -2ns) the cookie written
by `updateCookie` does not expire immediately — its expiry fields are left
untouched, so it carries no expiration attribute at all. -/
theorem C2_counterexample :
    cookieExpiresImmediately 0 (mkSessionCookie cfg0 0 "abc123" (-2)) = false ∧
    (mkSessionCookie cfg0 0 "abc123" (-2)).expiration
        = CookieExpiration.sessionScoped ∧
    hasExpirationAttr (mkSessionCookie cfg0 0 "abc123" (-2)) = false := by
  refine ⟨by decide, by decide, by decide⟩

/-- C2 as amended: every cookie write performed by the manager goes through
`updateCookie`, whose expiration encoding is: a negative duration leaves the
expiry fields untouched (no expiration attribute, browser-session-scoped — the
cookie is not expired immediately); a zero duration sets the unlimited
sentinel, serialized without an expiration attribute; a positive duration
produces the absolute expiry instant computed from the current time. -/
theorem C2_cookie_write_policy (s : Sessions) (now : Int) (ctx : Ctx)
    (sid : String) (expires : Int) (opts : List CookieOption) :
    ((s.updateCookie now ctx sid expires opts).writtenCookie s.config.cookie
        = some (mkSessionCookie s.config now sid expires, opts)) ∧
    (expires < 0 →
      (mkSessionCookie s.config now sid expires).expiration
          = CookieExpiration.sessionScoped ∧
      hasExpirationAttr (mkSessionCookie s.config now sid expires) = false ∧
      cookieExpiresImmediately now (mkSessionCookie s.config now sid expires)
          = false) ∧
    (expires = 0 →
      (mkSessionCookie s.config now sid expires).expiration
          = CookieExpiration.unlimited ∧
      hasExpirationAttr (mkSessionCookie s.config now sid expires) = false) ∧
    (0 < expires →
      (mkSessionCookie s.config now sid expires).expiration
          = CookieExpiration.absolute (now + expires) ∧
      cookieMaxAge now (mkSessionCookie s.config now sid expires)
          = some (Int.tdiv expires 1000000000)) := by
  refine ⟨writtenCookie_updateCookie s now ctx sid expires opts, ?_, ?_, ?_⟩
  · intro h
    have h2 : ¬ (0 ≤ expires) := by omega
    simp [mkSessionCookie, h2, hasExpirationAttr, cookieExpiresImmediately]
  · intro h
    simp [mkSessionCookie, h, hasExpirationAttr]
  · intro h
    have h1 : 0 ≤ expires := le_of_lt h
    have h2 : ¬ expires = 0 := by omega
    simp [mkSessionCookie, h1, h2, cookieMaxAge, add_sub_cancel_left]

/-- C2 witness at concrete inputs for all three branches of the policy. -/
theorem C2_witness :
    (sessions0.updateCookie 7 ctxNoCookie "abc123" 0 []).writtenCookie
        sessions0.config.cookie
      = some (mkSessionCookie sessions0.config 7 "abc123" 0, []) ∧
    (mkSessionCookie sessions0.config 7 "abc123" 0).expiration
        = CookieExpiration.unlimited ∧
    (mkSessionCookie sessions0.config 7 "abc123" (-5)).expiration
        = CookieExpiration.sessionScoped ∧
    (mkSessionCookie sessions0.config 7 "abc123" 3000000000).expiration
        = CookieExpiration.absolute (7 + 3000000000) :=
  ⟨(C2_cookie_write_policy sessions0 7 ctxNoCookie "abc123" 0 []).1,
   ((C2_cookie_write_policy sessions0 7 ctxNoCookie "abc123" 0 []).2.2.1 rfl).1,
   ((C2_cookie_write_policy sessions0 7 ctxNoCookie "abc123" (-5) []).2.1
      (by decide)).1,
   ((C2_cookie_write_policy sessions0 7 ctxNoCookie "abc123" 3000000000 []).2.2.2
      (by decide)).1⟩

/-- C3: `UpdateExpiration` returns `ErrNotFound` when no cookie is present,
and (via the provider) when the cookie value is unknown to both the registry
and the databases; with a cookie present it returns the provider error and
rewrites the cookie expiration exactly when the provider succeeded or the
requested duration is the immediate-expiry sentinel `-1`. -/
theorem C3_updateExpiration_spec (s : Sessions) (now : Int) (ctx : Ctx)
    (expires : Int) (opts : List CookieOption) :
    (ctx.getCookie s.config.cookie = "" →
      s.updateExpiration now ctx expires opts
        = (some SessionError.errNotFound, s, ctx)) ∧
    (ctx.getCookie s.config.cookie ≠ "" →
      s.provider.knowsID (ctx.getCookie s.config.cookie) = false →
      (s.updateExpiration now ctx expires opts).1
        = some SessionError.errNotFound) ∧
    (ctx.getCookie s.config.cookie ≠ "" →
      (s.updateExpiration now ctx expires opts).1
          = (s.provider.updateExpiration (ctx.getCookie s.config.cookie)
              expires).1 ∧
      (s.updateExpiration now ctx expires opts).2.2
        = (if (s.provider.updateExpiration (ctx.getCookie s.config.cookie)
                  expires).1 = none ∨ expires = -1
           then Sessions.updateCookie
                  { s with provider :=
                      (s.provider.updateExpiration
                        (ctx.getCookie s.config.cookie) expires).2 }
                  now ctx (ctx.getCookie s.config.cookie) expires opts
           else ctx)) := by
  refine ⟨?_, ?_, ?_⟩
  · intro h
    simp [Sessions.updateExpiration, h]
  · intro h hk
    simp [Sessions.updateExpiration, h, Provider.updateExpiration, hk]
  · intro h
    constructor <;> simp [Sessions.updateExpiration, h]

/-- C3 witness: no cookie and unknown-id cases at concrete inputs. -/
theorem C3_witness :
    sessions0.updateExpiration 0 ctxNoCookie 5 []
        = (some SessionError.errNotFound, sessions0, ctxNoCookie) ∧
    (sessions0.updateExpiration 0 ctxWithSid 5 []).1
        = some SessionError.errNotFound :=
  ⟨(C3_updateExpiration_spec sessions0 0 ctxNoCookie 5 []).1 rfl,
   (C3_updateExpiration_spec sessions0 0 ctxWithSid 5 []).2.1 (by decide)
     (by decide)⟩

/-- C4: for an id never seen before — unknown to the registry and with no
entries in any registered database — `Start` creates a session whose is-new
flag is true (computed from the database entry count) and whose store is
empty. -/
theorem C4_start_unseen_id_new_empty (s : Sessions) (now : Int) (ctx : Ctx)
    (opts : List CookieOption)
    (hcookie : ctx.getCookie s.config.cookie = "")
    (_hreg : lookupKey s.provider.registry (s.config.sessionIDGenerator ctx)
        = none)
    (hdb : s.provider.dbLen (s.config.sessionIDGenerator ctx) = 0) :
    (s.start now ctx opts).1.isNew = true ∧
    (s.start now ctx opts).1.store.length = 0 := by
  simp [Sessions.start, hcookie, Sessions.startFresh, Provider.init, hdb]

/-- C4 witness at a fresh manager and an empty request. -/
theorem C4_witness :
    (sessions0.start 0 ctxNoCookie []).1.isNew = true ∧
    (sessions0.start 0 ctxNoCookie []).1.store.length = 0 :=
  C4_start_unseen_id_new_empty sessions0 0 ctxNoCookie [] rfl rfl rfl

/-- C5: with the configured cookie present, `Destroy` removes the session from
the request-scoped state, removes the cookie client-side, and destroys the
provider record for the cookie value, leaving the response cookies and the
manager configuration alone; with no cookie it changes nothing. -/
theorem C5_destroy_spec (s : Sessions) (ctx : Ctx) :
    (ctx.getCookie s.config.cookie = "" → s.destroy ctx = (s, ctx)) ∧
    (ctx.getCookie s.config.cookie ≠ "" →
      (s.destroy ctx).2.values = eraseKey ctx.values sessionContextKey ∧
      (s.destroy ctx).2.removedCookies
          = ctx.removedCookies ++ [s.config.cookie] ∧
      (s.destroy ctx).1.provider
          = s.provider.destroy (ctx.getCookie s.config.cookie) ∧
      (s.destroy ctx).2.responseCookies = ctx.responseCookies ∧
      (s.destroy ctx).1.config = s.config) := by
  constructor
  · intro h
    simp [Sessions.destroy, h]
  · intro h
    refine ⟨?_, ?_, ?_, ?_, ?_⟩ <;>
      simp [Sessions.destroy, h, Ctx.valuesRemove, Ctx.removeCookie]

/-- C5 witness: no-op and destructive cases at concrete inputs. -/
theorem C5_witness :
    sessions0.destroy ctxNoCookie = (sessions0, ctxNoCookie) ∧
    (sessions0.destroy ctxWithSid).2.removedCookies
        = ctxWithSid.removedCookies ++ [sessions0.config.cookie] :=
  ⟨(C5_destroy_spec sessions0 ctxNoCookie).1 rfl,
   ((C5_destroy_spec sessions0 ctxWithSid).2 (by decide)).2.1⟩

/-- C6: the package-level `Get` returns the session attached to the
request-scoped state under the fixed key, none when nothing was attached, and
none once `Destroy` has run earlier in the same request cycle. -/
theorem C6_get_spec (ctx : Ctx) :
    (∀ sess : Session,
      ctx.valuesGet sessionContextKey = some (CtxValue.session sess) →
      Get ctx = some sess) ∧
    (ctx.valuesGet sessionContextKey = none → Get ctx = none) ∧
    (∀ s : Sessions, ctx.getCookie s.config.cookie ≠ "" →
      Get (s.destroy ctx).2 = none) := by
  refine ⟨?_, ?_, ?_⟩
  · intro sess h
    simp [Get, h]
  · intro h
    simp [Get, h]
  · intro s h
    simp [Sessions.destroy, h, Get, Ctx.valuesGet, Ctx.valuesRemove,
      Ctx.removeCookie, lookup_eraseKey]

/-- C6 witness: attached, unattached and destroyed cases at concrete inputs. -/
theorem C6_witness :
    Get ctxAttached = some sessEx ∧
    Get ctxNoCookie = none ∧
    Get (sessions0.destroy ctxWithSid).2 = none :=
  ⟨(C6_get_spec ctxAttached).1 sessEx rfl,
   (C6_get_spec ctxNoCookie).2.1 rfl,
   (C6_get_spec ctxWithSid).2.2 sessions0 (by decide)⟩

/-- C7: `Handler` captures the per-call cookie options on the manager; per
request it merges the manager-wide cookie-scope flags (reclaim, subdomain
persistence, secure-only, value encoding) into the request-lifecycle options,
calls `Start` with the per-call options, attaches the resulting session to the
request-scoped state under the fixed key, and continues downstream. -/
theorem C7_handler_spec (s : Sessions) (now : Int) (opts : List CookieOption)
    (ctx : Ctx) :
    (s.handler opts).handlerCookieOpts = opts ∧
    ((CookieOption.allowReclaim s.config.cookie ∈ s.handlerRequestOptions
        ↔ s.config.allowReclaim = true) ∧
     (CookieOption.allowSubdomains s.config.cookie ∈ s.handlerRequestOptions
        ↔ s.config.disableSubdomainPersistence = false) ∧
     (CookieOption.secure ∈ s.handlerRequestOptions
        ↔ s.config.cookieSecureTLS = true) ∧
     (CookieOption.encoding s.config.cookie ∈ s.handlerRequestOptions
        ↔ s.config.encoding = true)) ∧
    (s.handlerStep now opts ctx).2.cookieOptions
        = ctx.cookieOptions ++ s.handlerRequestOptions ∧
    (s.handlerStep now opts ctx).2.valuesGet sessionContextKey
        = some (CtxValue.session
            (s.start now (ctx.addCookieOptions s.handlerRequestOptions)
              opts).1) ∧
    (s.handlerStep now opts ctx).2.nextCalled = true := by
  have hf := start_ctx_frame s now (ctx.addCookieOptions s.handlerRequestOptions)
    opts
  refine ⟨rfl, ?_, ?_, ?_, ?_⟩
  · cases hA : s.config.allowReclaim <;>
      cases hD : s.config.disableSubdomainPersistence <;>
        cases hS : s.config.cookieSecureTLS <;>
          cases hE : s.config.encoding <;>
            simp [Sessions.handlerRequestOptions, hA, hD, hS, hE]
  · simpa [Sessions.handlerStep, Ctx.valuesSet, Ctx.next,
      Ctx.addCookieOptions] using hf.1
  · simp [Sessions.handlerStep, Ctx.valuesSet, Ctx.next, Ctx.valuesGet,
      lookup_putKey]
  · simp [Sessions.handlerStep, Ctx.next]

/-- C8: `DestroyByID` and `DestroyAll` act on the provider alone — they never
read or write the in-flight request context, which is unchanged, and they
leave the manager configuration alone. -/
theorem C8_admin_ops_frame (w : RequestWorld) (sid : String) :
    (w.destroyByID sid).ctx = w.ctx ∧
    w.destroyAll.ctx = w.ctx ∧
    (w.destroyByID sid).manager.provider = w.manager.provider.destroy sid ∧
    w.destroyAll.manager.provider = w.manager.provider.destroyAll ∧
    (w.destroyByID sid).manager.config = w.manager.config ∧
    w.destroyAll.manager.config = w.manager.config :=
  ⟨rfl, rfl, rfl, rfl, rfl, rfl⟩

/-- C9: `ShiftExpiration` is exactly `UpdateExpiration` called with the
configured default expiration — identical error, provider effect and context
effect. -/
theorem C9_shift_is_update_with_config_expires (s : Sessions) (now : Int)
    (ctx : Ctx) (opts : List CookieOption) :
    s.shiftExpiration now ctx opts
      = s.updateExpiration now ctx s.config.expires opts :=
  rfl

/-- C10: with a cookie present and the duration exactly `-1`, the cookie is
rewritten even when the provider update fails and that error is still
returned; for any other negative duration a provider error suppresses the
rewrite while the error is returned. -/
theorem C10_minus_one_rewrites_despite_error (s : Sessions) (now : Int)
    (ctx : Ctx) (opts : List CookieOption) :
    (ctx.getCookie s.config.cookie ≠ "" →
      (s.updateExpiration now ctx (-1) opts).2.2
        = Sessions.updateCookie
            { s with provider :=
                (s.provider.updateExpiration (ctx.getCookie s.config.cookie)
                  (-1)).2 }
            now ctx (ctx.getCookie s.config.cookie) (-1) opts ∧
      (s.updateExpiration now ctx (-1) opts).1
        = (s.provider.updateExpiration (ctx.getCookie s.config.cookie)
            (-1)).1) ∧
    (∀ expires : Int, ∀ e : SessionError, expires < 0 → expires ≠ -1 →
      ctx.getCookie s.config.cookie ≠ "" →
      (s.provider.updateExpiration (ctx.getCookie s.config.cookie) expires).1
          = some e →
      (s.updateExpiration now ctx expires opts).2.2 = ctx ∧
      (s.updateExpiration now ctx expires opts).1 = some e) := by
  constructor
  · intro h
    constructor <;> simp [Sessions.updateExpiration, h]
  · intro expires e _hneg hne h herr
    constructor <;> simp [Sessions.updateExpiration, h, herr, hne]

/-- C10 witness: a present cookie whose id the provider does not know, so the
provider update fails; with -1 the cookie is still rewritten, with -2 it is
not and the error is surfaced. -/
theorem C10_witness :
    ((sessions0.updateExpiration 0 ctxWithSid (-1) []).2.2
        = Sessions.updateCookie
            { sessions0 with provider :=
                (sessions0.provider.updateExpiration
                  (ctxWithSid.getCookie sessions0.config.cookie) (-1)).2 }
            0 ctxWithSid (ctxWithSid.getCookie sessions0.config.cookie)
            (-1) []) ∧
    (sessions0.updateExpiration 0 ctxWithSid (-2) []).2.2 = ctxWithSid ∧
    (sessions0.updateExpiration 0 ctxWithSid (-2) []).1
        = some SessionError.errNotFound :=
  ⟨((C10_minus_one_rewrites_despite_error sessions0 0 ctxWithSid []).1
      (by decide)).1,
   ((C10_minus_one_rewrites_despite_error sessions0 0 ctxWithSid []).2
      (-2) SessionError.errNotFound (by decide) (by decide) (by decide)
      (by decide)).1,
   ((C10_minus_one_rewrites_despite_error sessions0 0 ctxWithSid []).2
      (-2) SessionError.errNotFound (by decide) (by decide) (by decide)
      (by decide)).2⟩

end IrisSessions
